import Mathlib

/-!
Shallow embedding of the route-visualization and address-search core of the
Logbook frontend:

* `frontend/src/components/TripRouteMap.tsx` — polyline decoding wrapper,
  bounds/center computation (`getBoundsCenter`), proportional stop placement
  (`stopMarkers`);
* `frontend/src/services/placesService.ts` — `searchPlaces` response mapping;
* `frontend/src/components/AddressSearchInput.tsx` — the debounced
  suggestion pipeline, modelled as an explicit event-driven state machine.

JavaScript numbers are modelled by `ℚ`: all arithmetic appearing in the
claims (deltas scaled by 1e5, midpoints, the proportional index formula) is
exact decimal/integer arithmetic, and the claims under study are stated at
that exact level.  Fallible operations are modelled with `Option`.
-/

namespace Logbook

/-- A stop event from the trip-planning response
(`PlanTripResponse["stops"][number]` in `TripRouteMap.tsx`). -/
structure Stop where
  type : String
  duration_minutes : ℤ
  description : String
deriving DecidableEq, Repr

/-- A stop together with its derived position (`StopWithPosition` in
`TripRouteMap.tsx`);  the position pair is `(lat, lng)`. -/
structure PlacedStop extends Stop where
  position : ℚ × ℚ
deriving DecidableEq, Repr

/-- Path index of the i-th of `N` stops on a path of `L` vertices.  The
source (`TripRouteMap.tsx` lines 88-90) computes
`Math.min(path.length - 1, Math.floor(((index + 1) / (stops.length + 1)) * (path.length - 1)))`;
over exact arithmetic that floor is the natural division
`(i + 1) * (L - 1) / (N + 1)`, proved as `stopIdx_eq_floor` below. -/
def stopIdx (N L i : ℕ) : ℕ :=
  min (L - 1) ((i + 1) * (L - 1) / (N + 1))

/-- The natural-division form of `stopIdx` agrees with the source's
`Math.floor(((i + 1) / (N + 1)) * (L - 1))` formula over exact rationals. -/
theorem stopIdx_eq_floor (N L i : ℕ) (hL : 1 ≤ L) :
    stopIdx N L i =
      min (L - 1) (Nat.floor ((((i : ℚ) + 1) / ((N : ℚ) + 1)) * ((L : ℚ) - 1))) := by
  have hcast : (((i + 1) * (L - 1) : ℕ) : ℚ) = ((i : ℚ) + 1) * ((L : ℚ) - 1) := by
    rw [Nat.cast_mul, Nat.cast_add, Nat.cast_one, Nat.cast_sub hL, Nat.cast_one]
  have harg : ((i : ℚ) + 1) / ((N : ℚ) + 1) * ((L : ℚ) - 1)
      = (((i + 1) * (L - 1) : ℕ) : ℚ) / (((N + 1 : ℕ) : ℚ)) := by
    rw [hcast]
    push_cast
    ring
  rw [stopIdx, harg, Nat.floor_div_eq_div]

/-- The `stopMarkers` memo of `TripRouteMap.tsx` (lines 86-94):
`if (!stops || !stops.length || path.length < 2) return [];` followed by a
`map` placing the i-th stop on the path vertex `stopIdx`.  The source indexes
`path[idx]` directly; `idx < path.length` always holds there (see
`stopIdx_lt_length`), so the `getD` default is never consulted. -/
def stopMarkers (stops : List Stop) (path : List (ℚ × ℚ)) : List PlacedStop :=
  if stops.length = 0 ∨ path.length < 2 then []
  else
    stops.mapIdx fun index stop =>
      { toStop := stop
        position := path.getD (stopIdx stops.length path.length index) (0, 0) }

theorem stopIdx_le (N L i : ℕ) : stopIdx N L i ≤ L - 1 :=
  min_le_left _ _

theorem stopIdx_lt (N L i : ℕ) (h2 : 2 ≤ L) (hi : i < N) :
    stopIdx N L i + 1 < L := by
  have h1 : (i + 1) * (L - 1) / (N + 1) < L - 1 := by
    rw [Nat.div_lt_iff_lt_mul (Nat.succ_pos N)]
    have hlt : (i + 1) * (L - 1) < (N + 1) * (L - 1) :=
      Nat.mul_lt_mul_of_lt_of_le (by omega) le_rfl (by omega)
    calc (i + 1) * (L - 1) < (N + 1) * (L - 1) := hlt
      _ = (L - 1) * (N + 1) := Nat.mul_comm _ _
  have hmin : stopIdx N L i = (i + 1) * (L - 1) / (N + 1) :=
    min_eq_right (le_of_lt h1)
  omega

theorem stopIdx_lt_length (N L i : ℕ) (h2 : 2 ≤ L) (hi : i < N) :
    stopIdx N L i < L := by
  have := stopIdx_lt N L i h2 hi
  omega

theorem stopIdx_mono (N L : ℕ) {i j : ℕ} (hij : i ≤ j) :
    stopIdx N L i ≤ stopIdx N L j := by
  unfold stopIdx
  exact min_le_min le_rfl
    (Nat.div_le_div_right (Nat.mul_le_mul_right _ (by omega)))

theorem stopMarkers_length (stops : List Stop) (path : List (ℚ × ℚ))
    (h2 : 2 ≤ path.length) (hs : stops ≠ []) :
    (stopMarkers stops path).length = stops.length := by
  have hg : ¬(stops.length = 0 ∨ path.length < 2) := by
    push_neg
    exact ⟨fun h => hs (List.length_eq_zero.mp h), by omega⟩
  rw [stopMarkers, if_neg hg, List.length_mapIdx]

theorem stopMarkers_get? (stops : List Stop) (path : List (ℚ × ℚ))
    (h2 : 2 ≤ path.length) (hs : stops ≠ []) {i : ℕ} (hi : i < stops.length) :
    (stopMarkers stops path).get? i =
      some { toStop := stops.get ⟨i, hi⟩
             position := path.getD (stopIdx stops.length path.length i) (0, 0) } := by
  have hg : ¬(stops.length = 0 ∨ path.length < 2) := by
    push_neg
    exact ⟨fun h => hs (List.length_eq_zero.mp h), by omega⟩
  rw [stopMarkers, if_neg hg]
  have hlen : i < (stops.mapIdx fun index stop =>
      ({ toStop := stop
         position := path.getD (stopIdx stops.length path.length index) (0, 0) } :
        PlacedStop)).length := by
    rw [List.length_mapIdx]
    exact hi
  rw [List.get?_eq_get hlen, List.get_mapIdx _ _ i hi]

/-- Sample stop used by concrete witnesses and counterexamples. -/
def exStop : Stop := { type := "break", duration_minutes := 30, description := "rest" }

/-- C1 counterexample.  With N = 1 stop and a path of L = 2 distinct vertices
the code places the stop at `min(1, floor((1/2) * 1)) = 0`, i.e. exactly on
the start vertex, contradicting the claim that the placed index is never 0.
Here the single placed position equals the first vertex `(1, 2)` of the path
`[(1, 2), (3, 4)]`, whose two vertices are distinct. -/
theorem C1_counterexample :
    (Logbook.stopMarkers [Logbook.exStop] [(1, 2), (3, 4)]).map
        (fun ps => ps.position) = [(1, 2)] ∧
    ((1, 2) : ℚ × ℚ) ≠ (3, 4) := by
  exact ⟨rfl, by decide⟩

/-- C1 (amended): for every list of N ≥ 1 stops and path of length L ≥ 2, the
i-th placed stop is positioned exactly at the path vertex with index
`min(L-1, floor(((i+1)/(N+1)) * (L-1)))` — exactly a vertex of the path,
never interpolated — and that index is never `L-1` (the end vertex).  It can,
however, be 0 (the start vertex), namely whenever `(i+1)*(L-1) < N+1`
(see `C1_counterexample`), so the original "never 0" part is dropped. -/
theorem C1_amended (stops : List Stop) (path : List (ℚ × ℚ))
    (h2 : 2 ≤ path.length) (hs : stops ≠ []) (i : ℕ) (hi : i < stops.length) :
    ∃ (hlen : i < (stopMarkers stops path).length)
      (hidx : stopIdx stops.length path.length i < path.length),
      (stopMarkers stops path).get ⟨i, hlen⟩ =
        { toStop := stops.get ⟨i, hi⟩
          position := path.get ⟨stopIdx stops.length path.length i, hidx⟩ } ∧
      stopIdx stops.length path.length i + 1 < path.length := by
  have hlt : stopIdx stops.length path.length i + 1 < path.length :=
    stopIdx_lt stops.length path.length i h2 hi
  have hidx : stopIdx stops.length path.length i < path.length := by omega
  have hlen : i < (stopMarkers stops path).length := by
    rw [stopMarkers_length stops path h2 hs]
    exact hi
  refine ⟨hlen, hidx, ?_, hlt⟩
  have h1 := stopMarkers_get? stops path h2 hs hi
  rw [List.get?_eq_get hlen] at h1
  have hD : path.getD (stopIdx stops.length path.length i) (0, 0) =
      path.get ⟨stopIdx stops.length path.length i, hidx⟩ :=
    List.getD_eq_get path (0, 0) hidx
  rw [hD] at h1
  exact Option.some.inj h1

/-- C1 amended witness: 1 stop on a 3-vertex path is placed on the middle
vertex (index `min(2, floor((1/2) * 2)) = 1`), which is neither endpoint. -/
theorem C1_amended_witness :
    ∃ (hlen : 0 < (Logbook.stopMarkers [Logbook.exStop]
        [(1, 2), (3, 4), (5, 6)]).length)
      (hidx : Logbook.stopIdx 1 3 0 < 3),
      (Logbook.stopMarkers [Logbook.exStop] [(1, 2), (3, 4), (5, 6)]).get
          ⟨0, hlen⟩ =
        { toStop := Logbook.exStop
          position := ([(1, 2), (3, 4), (5, 6)] : List (ℚ × ℚ)).get
            ⟨Logbook.stopIdx 1 3 0, hidx⟩ } ∧
      Logbook.stopIdx 1 3 0 + 1 < 3 :=
  Logbook.C1_amended [Logbook.exStop] [(1, 2), (3, 4), (5, 6)]
    (by decide) (by decide) 0 (by decide)

/-- C2: for every list of N ≥ 1 stops and path of length L ≥ 2, every placed
stop's path index lies in `[0, L-1]` (the lower bound is inherent to `ℕ`),
the indices are non-decreasing in the stop's position in the input list, and
the i-th placed stop is indeed the i-th input stop placed on the vertex at
index `stopIdx`. -/
theorem C2_theorem (stops : List Stop) (path : List (ℚ × ℚ))
    (h2 : 2 ≤ path.length) :
    (∀ i, stopIdx stops.length path.length i ≤ path.length - 1) ∧
    (∀ i j, i ≤ j →
      stopIdx stops.length path.length i ≤ stopIdx stops.length path.length j) ∧
    (∀ i (hi : i < stops.length),
      (stopMarkers stops path).get? i =
        some { toStop := stops.get ⟨i, hi⟩
               position :=
                 path.getD (stopIdx stops.length path.length i) (0, 0) }) := by
  refine ⟨fun i => stopIdx_le _ _ _, fun i j hij => stopIdx_mono _ _ hij,
    fun i hi => ?_⟩
  have hs : stops ≠ [] := by
    rintro rfl
    simp at hi
  exact stopMarkers_get? stops path h2 hs hi

/-- C2 witness: 2 stops on a 4-vertex path; both indices are at most 3,
monotone, and the first placed stop is the first input stop at vertex
`stopIdx 2 4 0 = 1`. -/
theorem C2_witness :
    Logbook.stopIdx 2 4 0 ≤ 4 - 1 ∧
    Logbook.stopIdx 2 4 0 ≤ Logbook.stopIdx 2 4 1 ∧
    (Logbook.stopMarkers [Logbook.exStop, Logbook.exStop]
        [(1, 2), (3, 4), (5, 6), (7, 8)]).get? 0 =
      some { toStop := Logbook.exStop
             position := ([(1, 2), (3, 4), (5, 6), (7, 8)] : List (ℚ × ℚ)).getD
               (Logbook.stopIdx 2 4 0) (0, 0) } :=
  ⟨(Logbook.C2_theorem [Logbook.exStop, Logbook.exStop]
      [(1, 2), (3, 4), (5, 6), (7, 8)] (by decide)).1 0,
   (Logbook.C2_theorem [Logbook.exStop, Logbook.exStop]
      [(1, 2), (3, 4), (5, 6), (7, 8)] (by decide)).2.1 0 1 (by decide),
   (Logbook.C2_theorem [Logbook.exStop, Logbook.exStop]
      [(1, 2), (3, 4), (5, 6), (7, 8)] (by decide)).2.2 0 (by decide)⟩

/-- C6: stop placement returns the empty sequence whenever the path has
fewer than 2 vertices (for any stop list) or the stop list is empty (for any
path). -/
theorem C6_theorem (stops : List Stop) (path : List (ℚ × ℚ))
    (h : path.length < 2 ∨ stops = []) :
    stopMarkers stops path = [] := by
  rw [stopMarkers, if_pos]
  rcases h with h | h
  · exact Or.inr h
  · exact Or.inl (by simp [h])

/-- C6 witness: a non-empty stop list on a single-vertex path yields no
placed stops. -/
theorem C6_witness :
    Logbook.stopMarkers [Logbook.exStop] [(1, 2)] = [] :=
  Logbook.C6_theorem [Logbook.exStop] [(1, 2)] (Or.inl (by decide))

/-- The fixed fallback map center of `TripRouteMap.tsx`
(`DEFAULT_CENTER = [40.69959172666929, -103.04816033981959]`). -/
def DEFAULT_CENTER : ℚ × ℚ := (40.69959172666929, -103.04816033981959)

/-- Running bounds of the `getBoundsCenter` loop (the spec's `Bounds` value). -/
structure Bounds where
  minLat : ℚ
  maxLat : ℚ
  minLng : ℚ
  maxLng : ℚ
deriving DecidableEq, Repr

/-- One iteration of the `for (const p of points)` loop of `getBoundsCenter`
(`TripRouteMap.tsx` lines 27-33): each bound is updated by a strict
comparison against the incoming point. -/
def boundsStep (b : Bounds) (q : ℚ × ℚ) : Bounds :=
  { minLat := if q.1 < b.minLat then q.1 else b.minLat
    maxLat := if q.1 > b.maxLat then q.1 else b.maxLat
    minLng := if q.2 < b.minLng then q.2 else b.minLng
    maxLng := if q.2 > b.maxLng then q.2 else b.maxLng }

/-- `getBoundsCenter` of `TripRouteMap.tsx` (lines 21-35).  The source seeds
the four bounds with `±Infinity`, which has no counterpart in `ℚ`; since the
empty case is returned early, the first loop iteration always replaces all
four sentinels with the first point's coordinates, so the loop is modelled
by seeding the fold with the first point and folding over the tail. -/
def getBoundsCenter (points : List (ℚ × ℚ)) : ℚ × ℚ :=
  match points with
  | [] => DEFAULT_CENTER
  | p :: ps =>
    let b := ps.foldl boundsStep ⟨p.1, p.1, p.2, p.2⟩
    ((b.minLat + b.maxLat) / 2, (b.minLng + b.maxLng) / 2)

/-- Minimum latitude of a non-empty point list (head given separately). -/
def minimumLat (p : ℚ × ℚ) (ps : List (ℚ × ℚ)) : ℚ :=
  ps.foldl (fun a q => min a q.1) p.1

/-- Maximum latitude of a non-empty point list (head given separately). -/
def maximumLat (p : ℚ × ℚ) (ps : List (ℚ × ℚ)) : ℚ :=
  ps.foldl (fun a q => max a q.1) p.1

/-- Minimum longitude of a non-empty point list (head given separately). -/
def minimumLng (p : ℚ × ℚ) (ps : List (ℚ × ℚ)) : ℚ :=
  ps.foldl (fun a q => min a q.2) p.2

/-- Maximum longitude of a non-empty point list (head given separately). -/
def maximumLng (p : ℚ × ℚ) (ps : List (ℚ × ℚ)) : ℚ :=
  ps.foldl (fun a q => max a q.2) p.2

theorem boundsFold_minLat : ∀ (ps : List (ℚ × ℚ)) (b : Bounds),
    (ps.foldl boundsStep b).minLat = ps.foldl (fun a q => min a q.1) b.minLat := by
  intro ps
  induction ps with
  | nil => intro b; rfl
  | cons q qs ih =>
    intro b
    rw [List.foldl_cons, List.foldl_cons, ih]
    have : (boundsStep b q).minLat = min b.minLat q.1 := by
      rw [boundsStep]
      rcases lt_or_le q.1 b.minLat with h | h
      · rw [if_pos h, min_eq_right h.le]
      · rw [if_neg (not_lt.mpr h), min_eq_left h]
    rw [this]

theorem boundsFold_maxLat : ∀ (ps : List (ℚ × ℚ)) (b : Bounds),
    (ps.foldl boundsStep b).maxLat = ps.foldl (fun a q => max a q.1) b.maxLat := by
  intro ps
  induction ps with
  | nil => intro b; rfl
  | cons q qs ih =>
    intro b
    rw [List.foldl_cons, List.foldl_cons, ih]
    have : (boundsStep b q).maxLat = max b.maxLat q.1 := by
      rw [boundsStep]
      rcases lt_or_le b.maxLat q.1 with h | h
      · rw [if_pos h, max_eq_right h.le]
      · rw [if_neg (not_lt.mpr h), max_eq_left h]
    rw [this]

theorem boundsFold_minLng : ∀ (ps : List (ℚ × ℚ)) (b : Bounds),
    (ps.foldl boundsStep b).minLng = ps.foldl (fun a q => min a q.2) b.minLng := by
  intro ps
  induction ps with
  | nil => intro b; rfl
  | cons q qs ih =>
    intro b
    rw [List.foldl_cons, List.foldl_cons, ih]
    have : (boundsStep b q).minLng = min b.minLng q.2 := by
      rw [boundsStep]
      rcases lt_or_le q.2 b.minLng with h | h
      · rw [if_pos h, min_eq_right h.le]
      · rw [if_neg (not_lt.mpr h), min_eq_left h]
    rw [this]

theorem boundsFold_maxLng : ∀ (ps : List (ℚ × ℚ)) (b : Bounds),
    (ps.foldl boundsStep b).maxLng = ps.foldl (fun a q => max a q.2) b.maxLng := by
  intro ps
  induction ps with
  | nil => intro b; rfl
  | cons q qs ih =>
    intro b
    rw [List.foldl_cons, List.foldl_cons, ih]
    have : (boundsStep b q).maxLng = max b.maxLng q.2 := by
      rw [boundsStep]
      rcases lt_or_le b.maxLng q.2 with h | h
      · rw [if_pos h, max_eq_right h.le]
      · rw [if_neg (not_lt.mpr h), max_eq_left h]
    rw [this]

theorem foldl_min_le_foldl_max (f : ℚ × ℚ → ℚ) :
    ∀ (ps : List (ℚ × ℚ)) {a b : ℚ}, a ≤ b →
      ps.foldl (fun x q => min x (f q)) a ≤ ps.foldl (fun x q => max x (f q)) b := by
  intro ps
  induction ps with
  | nil => intro a b h; exact h
  | cons q qs ih =>
    intro a b h
    rw [List.foldl_cons, List.foldl_cons]
    exact ih (le_trans (min_le_left _ _) (le_trans h (le_max_left _ _)))

/-- `getBoundsCenter` on a non-empty list is the midpoint of the per-axis
minimum and maximum. -/
theorem getBoundsCenter_cons (p : ℚ × ℚ) (ps : List (ℚ × ℚ)) :
    getBoundsCenter (p :: ps) =
      ((minimumLat p ps + maximumLat p ps) / 2,
       (minimumLng p ps + maximumLng p ps) / 2) := by
  rw [getBoundsCenter]
  rw [boundsFold_minLat ps ⟨p.1, p.1, p.2, p.2⟩,
    boundsFold_maxLat ps ⟨p.1, p.1, p.2, p.2⟩,
    boundsFold_minLng ps ⟨p.1, p.1, p.2, p.2⟩,
    boundsFold_maxLng ps ⟨p.1, p.1, p.2, p.2⟩]
  rfl

/-- C4: `getBoundsCenter` on the empty point list returns the fixed default
map center, and on every non-empty point list it returns the arithmetic
midpoint of the per-axis min/max, which satisfies
`minLat ≤ centerLat ≤ maxLat` and `minLng ≤ centerLng ≤ maxLng`. -/
theorem C4_theorem (points : List (ℚ × ℚ)) :
    getBoundsCenter [] = DEFAULT_CENTER ∧
    (∀ p ps, points = p :: ps →
      getBoundsCenter points =
        ((minimumLat p ps + maximumLat p ps) / 2,
         (minimumLng p ps + maximumLng p ps) / 2) ∧
      minimumLat p ps ≤ (minimumLat p ps + maximumLat p ps) / 2 ∧
      (minimumLat p ps + maximumLat p ps) / 2 ≤ maximumLat p ps ∧
      minimumLng p ps ≤ (minimumLng p ps + maximumLng p ps) / 2 ∧
      (minimumLng p ps + maximumLng p ps) / 2 ≤ maximumLng p ps) := by
  refine ⟨rfl, ?_⟩
  rintro p ps rfl
  have hLat : minimumLat p ps ≤ maximumLat p ps :=
    foldl_min_le_foldl_max Prod.fst ps le_rfl
  have hLng : minimumLng p ps ≤ maximumLng p ps :=
    foldl_min_le_foldl_max Prod.snd ps le_rfl
  refine ⟨getBoundsCenter_cons p ps, by linarith, by linarith, by linarith,
    by linarith⟩

/-- C4 witness: on `[(1, 2), (5, 0)]` the center is the midpoint of the
per-axis bounds and lies inside them. -/
theorem C4_witness :
    Logbook.getBoundsCenter [(1, 2), (5, 0)] =
      ((Logbook.minimumLat (1, 2) [(5, 0)] + Logbook.maximumLat (1, 2) [(5, 0)]) / 2,
       (Logbook.minimumLng (1, 2) [(5, 0)] + Logbook.maximumLng (1, 2) [(5, 0)]) / 2) ∧
    Logbook.minimumLat (1, 2) [(5, 0)] ≤
      (Logbook.minimumLat (1, 2) [(5, 0)] + Logbook.maximumLat (1, 2) [(5, 0)]) / 2 ∧
    (Logbook.minimumLat (1, 2) [(5, 0)] + Logbook.maximumLat (1, 2) [(5, 0)]) / 2 ≤
      Logbook.maximumLat (1, 2) [(5, 0)] ∧
    Logbook.minimumLng (1, 2) [(5, 0)] ≤
      (Logbook.minimumLng (1, 2) [(5, 0)] + Logbook.maximumLng (1, 2) [(5, 0)]) / 2 ∧
    (Logbook.minimumLng (1, 2) [(5, 0)] + Logbook.maximumLng (1, 2) [(5, 0)]) / 2 ≤
      Logbook.maximumLng (1, 2) [(5, 0)] :=
  (Logbook.C4_theorem [(1, 2), (5, 0)]).2 (1, 2) [(5, 0)] rfl

/-- Modelled from the spec: one signed-varint chunk of the polyline encoding
used by the external `@mapbox/polyline` dependency (the library itself is
not part of this repository's sources; spec §4.1 describes it as "5 bits per
char, continuation bit, zig-zag sign decoding").  Each character contributes
`charCode - 63`; the low 5 bits accumulate little-endian and bit `0x20` is
the continuation bit.  Per spec §4.1, a premature end of input (continuation
bit set on the final character) is a decode failure. -/
def decodeVarint : List Char → Option (ℤ × List Char)
  | [] => none
  | c :: cs =>
    let b : ℤ := (c.toNat : ℤ) - 63
    if 32 ≤ b then
      (decodeVarint cs).map fun p => (b % 32 + 32 * p.1, p.2)
    else
      some (b % 32, cs)

theorem decodeVarint_length :
    ∀ (l : List Char) (v : ℤ) (rest : List Char),
      decodeVarint l = some (v, rest) → rest.length < l.length := by
  intro l
  induction l with
  | nil =>
    intro v rest h
    simp [decodeVarint] at h
  | cons c cs ih =>
    intro v rest h
    rw [decodeVarint] at h
    by_cases hb : 32 ≤ ((c.toNat : ℤ) - 63)
    · rw [if_pos hb] at h
      cases hcs : decodeVarint cs with
      | none => rw [hcs] at h; simp at h
      | some p =>
        rw [hcs] at h
        simp only [Option.map_some'] at h
        have hrest : rest = p.2 := (congrArg Prod.snd (Option.some.inj h)).symm
        have := ih p.1 p.2 (by rw [hcs])
        rw [hrest]
        exact Nat.lt_trans this (by simp)
    · rw [if_neg hb] at h
      have hrest : rest = cs := (congrArg Prod.snd (Option.some.inj h)).symm
      rw [hrest]
      simp

/-- Modelled from the spec: zig-zag sign decoding of a decoded varint
(`(result & 1) ? ~(result >> 1) : (result >> 1)` for a non-negative
`result`). -/
def zigzag (r : ℤ) : ℤ :=
  if r % 2 = 1 then -(r / 2) - 1 else r / 2

/-- Modelled from the spec: the delta-decoding loop of the polyline decoder.
Each loop iteration reads two varints (a latitude delta and a longitude
delta), accumulates them, and emits one coordinate pair, scaled by the fixed
factor 1e5 (so `(3850000, -12020000)` stands for `(38.5, -120.2)`).  The
fuel argument dominates the recursion depth; every iteration consumes at
least one character (see `decodeVarint_length`), so fuel equal to the input
length never runs out. -/
def decodeDeltas : ℕ → List Char → ℤ → ℤ → Option (List (ℤ × ℤ))
  | _, [], _, _ => some []
  | 0, _ :: _, _, _ => none
  | fuel + 1, c :: cs, lat, lng =>
    match decodeVarint (c :: cs) with
    | none => none
    | some (r1, rest1) =>
      match decodeVarint rest1 with
      | none => none
      | some (r2, rest2) =>
        let lat2 := lat + zigzag r1
        let lng2 := lng + zigzag r2
        match decodeDeltas fuel rest2 lat2 lng2 with
        | none => none
        | some ps => some ((lat2, lng2) :: ps)

/-- Modelled from the spec: `polyline.decode` with the fixed scale factor
1e5, returning latitude/longitude pairs, or failure on malformed input. -/
def polylineDecode (s : String) : Option (List (ℚ × ℚ)) :=
  (decodeDeltas s.data.length s.data 0 0).map
    (List.map fun p => ((p.1 : ℚ) / 100000, (p.2 : ℚ) / 100000))

/-- Sanity check of the modelled decoder on the reference polyline of spec
§8: the decoded scaled coordinates are `(38.5, -120.2)`, `(40.7, -120.95)`,
`(43.252, -126.453)` times 1e5. -/
theorem decodeDeltas_reference :
    decodeDeltas 28 "_p~iF~ps|U_ulLnnqC_mqNvxq`@".data 0 0 =
      some [(3850000, -12020000), (4070000, -12095000), (4325200, -12645300)] := by
  decide

/-- The `encodedPolyline` prop of `TripRouteMap`: absent/`null`, an encoded
string, or an already-decoded array of `[lng, lat]` pairs. -/
inductive EncodedPolyline where
  | null
  | str (s : String)
  | coords (l : List (ℚ × ℚ))
deriving DecidableEq, Repr

/-- The `path` memo of `TripRouteMap.tsx` (lines 74-84):
`null` yields `[]`; a coordinate array is mapped from `[lng, lat]` to
`[lat, lng]`; a string is decoded inside `try { ... } catch { return []; }`,
so a decode failure yields `[]`. -/
def tripPath : EncodedPolyline → List (ℚ × ℚ)
  | EncodedPolyline.null => []
  | EncodedPolyline.coords l => l.map fun p => (p.2, p.1)
  | EncodedPolyline.str s =>
    match polylineDecode s with
    | some ps => ps
    | none => []

/-- C3: decoding never throws (`tripPath` is total) and degrades to the
empty path on bad input: `null` input, the empty string, and any malformed
encoded string (one on which the decoder fails, e.g. by premature end) all
yield the empty path.  Coordinates live in `ℚ`, so no produced coordinate is
non-finite. -/
theorem C3_theorem (s : String) (h : polylineDecode s = none) :
    tripPath EncodedPolyline.null = [] ∧
    tripPath (EncodedPolyline.str "") = [] ∧
    tripPath (EncodedPolyline.str s) = [] := by
  refine ⟨rfl, rfl, ?_⟩
  rw [tripPath, h]

/-- C3 witness: `"_"` has its continuation bit set and then ends, so the
decoder fails on it, and the rendered path for it, for the empty string and
for `null` is empty. -/
theorem C3_witness :
    Logbook.polylineDecode "_" = none ∧
    (Logbook.tripPath Logbook.EncodedPolyline.null = [] ∧
     Logbook.tripPath (Logbook.EncodedPolyline.str "") = [] ∧
     Logbook.tripPath (Logbook.EncodedPolyline.str "_") = []) :=
  ⟨rfl, Logbook.C3_theorem "_" rfl⟩

/-- Trimmed length of a query.  JavaScript's `query.trim().length` strips
whitespace from both ends; it is modelled on the character list (Lean's
built-in `String.trim` is extensionally the same but does not reduce in the
kernel, which concrete witnesses need). -/
def trimLen (s : String) : ℕ :=
  ((s.data.dropWhile Char.isWhitespace).reverse.dropWhile Char.isWhitespace).length

/-- A suggestion produced by `searchPlaces`
(`placesService.ts`, `PlaceSuggestion`). -/
structure PlaceSuggestion where
  id : String
  label : String
  lat : ℚ
  lng : ℚ
deriving DecidableEq, Repr

/-- One GeoJSON-ish feature of a places-search response body, with every
field optional exactly as `searchPlaces` tolerates: `geometry.coordinates`
(a `[lng, lat]` pair), `properties.label`, `properties.name`,
`properties.id`, `properties.gid` (the numeric-or-string ids are modelled
post-`String(...)` conversion). -/
structure PlaceFeature where
  coordinates : Option (ℚ × ℚ)
  label : Option String
  name : Option String
  propId : Option String
  gid : Option String
deriving DecidableEq, Repr

/-- A places-search HTTP response body that resolved successfully:
`response.data?.error` and `response.data?.features` (the latter `none` when
absent or not an array).  A network/transport failure is not a body: it is
the rejected-promise path, modelled by `Event.resolveErr` below. -/
structure PlacesResponse where
  error : Option String
  features : Option (List PlaceFeature)
deriving DecidableEq, Repr

/-- `searchPlaces` of `placesService.ts` applied to a resolved response
body: queries shorter than 3 trimmed characters short-circuit to `[]`
before any request; a body carrying an `error` field yields `[]`; otherwise
each feature is mapped with the source's fallbacks (coordinates `(0, 0)`,
label `properties.label ?? properties.name ?? query`, id
`String(properties.id ?? properties.gid ?? index)`), swapping the
`[lng, lat]` coordinate order into `lat`/`lng` fields. -/
def searchPlaces (query : String) (resp : PlacesResponse) : List PlaceSuggestion :=
  if trimLen query < 3 then []
  else if resp.error.isSome then []
  else
    (resp.features.getD []).mapIdx fun index f =>
      let coords := f.coordinates.getD (0, 0)
      { id := f.propId.getD (f.gid.getD (toString index))
        label := f.label.getD (f.name.getD query)
        lat := coords.2
        lng := coords.1 }

/-- The reactive state of one `AddressSearchInput` instance, together with
two observation logs.  `query`, `suggestions`, `panelOpen` (`open` in the
source) and `error` are the four `useState` cells, `justSelected` is the
`justSelectedRef` flag, and `debounce` is the pending 300 ms `setTimeout`
with the query text its callback captured (`none` when no timer is
pending).  `issued` logs every fetch handed to `searchPlaces` as
`(sequence number, query)` in issue order, and `selectedPoints` logs every
point written out through `onLocationSelected`. -/
structure SearchState where
  query : String
  suggestions : List PlaceSuggestion
  panelOpen : Bool
  error : Option String
  justSelected : Bool
  debounce : Option String
  issued : List (ℕ × String)
  selectedPoints : List (ℚ × ℚ)
deriving DecidableEq, Repr

/-- The state of a freshly mounted `AddressSearchInput`. -/
def initState : SearchState :=
  { query := ""
    suggestions := []
    panelOpen := false
    error := none
    justSelected := false
    debounce := none
    issued := []
    selectedPoints := [] }

/-- The events that drive one `AddressSearchInput` instance.  `edit s` is a
user keystroke changing the input to `s`; `select sugg` is a click on a
suggestion; `fire` is the pending debounce timer expiring; `resolveOk n rs`
is the promise of issued fetch `n` resolving with suggestion list `rs`;
`resolveErr n msg` is that promise rejecting. -/
inductive Event where
  | edit (s : String)
  | select (sugg : PlaceSuggestion)
  | fire
  | resolveOk (n : ℕ) (results : List PlaceSuggestion)
  | resolveErr (n : ℕ) (msg : String)
deriving DecidableEq, Repr

/-- One run of the `useEffect` body on `[query]` (`AddressSearchInput`
lines 33-49), preceded by the previous effect's cleanup (which clears any
pending debounce timer).  If the `justSelected` flag is set it is consumed
and the body returns early; a query shorter than 3 trimmed characters
clears the suggestions, the error and the panel; otherwise a 300 ms
debounce timer is started for the current query. -/
def runQueryEffect (st : SearchState) : SearchState :=
  let st1 := { st with debounce := none }
  if st1.justSelected then { st1 with justSelected := false }
  else if trimLen st1.query < 3 then
    { st1 with suggestions := [], error := none, panelOpen := false }
  else
    { st1 with debounce := some st1.query }

/-- The event-step function of the component.  React batches the `set*`
calls of one handler into one render and re-runs the query effect exactly
when the rendered `query` differs from the previous one, so `edit` and
`select` run `runQueryEffect` only when the query text actually changes.
`fire` is the debounce callback (`setError(null); fetchSuggestions(query)`),
which issues the fetch.  `resolveOk` is `fetchSuggestions`' success path
(`setSuggestions(results); setOpen(true); if empty setError(...)`) — note it
guards on nothing: any in-flight fetch that resolves mutates the visible
state.  `resolveErr` is its catch path. -/
def step (st : SearchState) (e : Event) : SearchState :=
  match e with
  | Event.edit s =>
    if s = st.query then st
    else runQueryEffect { st with query := s }
  | Event.select sugg =>
    let st1 := { st with
      justSelected := true
      query := sugg.label
      suggestions := []
      panelOpen := false
      error := none
      selectedPoints := st.selectedPoints ++ [(sugg.lat, sugg.lng)] }
    if sugg.label = st.query then st1 else runQueryEffect st1
  | Event.fire =>
    match st.debounce with
    | none => st
    | some q =>
      { st with
        debounce := none
        error := none
        issued := st.issued ++ [(st.issued.length, q)] }
  | Event.resolveOk _ results =>
    { st with
      suggestions := results
      panelOpen := true
      error := if results.isEmpty then some "No results found" else st.error }
  | Event.resolveErr _ msg =>
    { st with error := some msg, suggestions := [] }

/-- A whole interleaving: fold the step function over an event trace. -/
def run (st : SearchState) (events : List Event) : SearchState :=
  events.foldl step st

/-- Sample suggestions used by concrete traces. -/
def sAbc : PlaceSuggestion := { id := "1", label := "Abc Street", lat := 1, lng := 2 }

def sAbcd : PlaceSuggestion := { id := "2", label := "Abcd Street", lat := 3, lng := 4 }

def sParis : PlaceSuggestion := { id := "p1", label := "Paris", lat := 5, lng := 6 }

def sParisTexas : PlaceSuggestion :=
  { id := "p2", label := "Paris Texas", lat := 7, lng := 8 }

/-- The C5 interleaving: a fetch for "abc" is issued (sequence number 0),
then a fetch for "abcd" (sequence number 1); the later fetch resolves first
with `[sAbcd]`, then the slow earlier fetch resolves with `[sAbc]`. -/
def c5Trace : List Event :=
  [Event.edit "abc", Event.fire, Event.edit "abcd", Event.fire,
   Event.resolveOk 1 [sAbcd], Event.resolveOk 0 [sAbc]]

/-- C5 evaluated at the failing interleaving: the fetches are issued in the
order 0 = "abc", 1 = "abcd", fetch 1's results are applied first, and then
fetch 0's late response overwrites them, leaving the visible suggestions
equal to the EARLIER fetch's results (`[sAbc]`, distinct from `[sAbcd]`).
`fetchSuggestions` has no request-generation guard, so "last request wins"
(required by spec §5) does not hold: the code implements "last response
wins". -/
theorem C5_code_bug :
    (run initState c5Trace).issued = [(0, "abc"), (1, "abcd")] ∧
    (run initState c5Trace).suggestions = [sAbc] ∧
    sAbc ≠ sAbcd := by
  refine ⟨rfl, rfl, by decide⟩

/-- C7: selecting a suggestion writes its geo-point out via the
`onLocationSelected` callback, replaces the query text with the suggestion's
label, closes the panel, clears the suggestions, issues no fetch, and — when
the rewrite actually changes the query text, i.e. when the query-change
evaluation it causes runs at all — that evaluation consumes the suppression
flag, starts no debounce timer and leaves the panel closed. -/
theorem C7_theorem (st : SearchState) (sugg : PlaceSuggestion) :
    (step st (Event.select sugg)).selectedPoints =
      st.selectedPoints ++ [(sugg.lat, sugg.lng)] ∧
    (step st (Event.select sugg)).query = sugg.label ∧
    (step st (Event.select sugg)).panelOpen = false ∧
    (step st (Event.select sugg)).suggestions = [] ∧
    (step st (Event.select sugg)).issued = st.issued ∧
    (sugg.label ≠ st.query →
      (step st (Event.select sugg)).debounce = none ∧
      (step st (Event.select sugg)).justSelected = false) := by
  by_cases h : sugg.label = st.query
  · simp [step, runQueryEffect, h]
  · simp [step, runQueryEffect, h]

/-- C7 witness: selecting `sParis` in a state whose query is "par" (so the
rewrite to "Paris" changes the text and re-runs the evaluation). -/
theorem C7_witness :
    (Logbook.step { Logbook.initState with query := "par" }
        (Logbook.Event.select Logbook.sParis)).selectedPoints =
      Logbook.initState.selectedPoints ++ [(Logbook.sParis.lat, Logbook.sParis.lng)] ∧
    (Logbook.step { Logbook.initState with query := "par" }
        (Logbook.Event.select Logbook.sParis)).query = Logbook.sParis.label ∧
    (Logbook.step { Logbook.initState with query := "par" }
        (Logbook.Event.select Logbook.sParis)).panelOpen = false ∧
    (Logbook.step { Logbook.initState with query := "par" }
        (Logbook.Event.select Logbook.sParis)).suggestions = [] ∧
    (Logbook.step { Logbook.initState with query := "par" }
        (Logbook.Event.select Logbook.sParis)).issued =
      ({ Logbook.initState with query := "par" } : Logbook.SearchState).issued ∧
    (Logbook.sParis.label ≠
        ({ Logbook.initState with query := "par" } : Logbook.SearchState).query →
      (Logbook.step { Logbook.initState with query := "par" }
          (Logbook.Event.select Logbook.sParis)).debounce = none ∧
      (Logbook.step { Logbook.initState with query := "par" }
          (Logbook.Event.select Logbook.sParis)).justSelected = false) :=
  Logbook.C7_theorem { Logbook.initState with query := "par" } Logbook.sParis

/-- C9: if the selected suggestion's label is identical to the current query
text, the query-change evaluation does not re-run, so the `justSelected`
flag is left set after the selection; the next genuine user edit is then
swallowed by the guard: its evaluation consumes the flag and returns early,
starting no debounce timer, issuing no fetch, and leaving the suggestion
list untouched, whatever the length of the new query. -/
theorem C9_theorem (st : SearchState) (sugg : PlaceSuggestion) (s : String)
    (hlab : sugg.label = st.query) (hne : s ≠ sugg.label) :
    (step st (Event.select sugg)).justSelected = true ∧
    (step (step st (Event.select sugg)) (Event.edit s)).justSelected = false ∧
    (step (step st (Event.select sugg)) (Event.edit s)).debounce = none ∧
    (step (step st (Event.select sugg)) (Event.edit s)).issued = st.issued ∧
    (step (step st (Event.select sugg)) (Event.edit s)).suggestions =
      (step st (Event.select sugg)).suggestions := by
  have h1 : step st (Event.select sugg) =
      { st with
        justSelected := true
        query := sugg.label
        suggestions := []
        panelOpen := false
        error := none
        selectedPoints := st.selectedPoints ++ [(sugg.lat, sugg.lng)] } := by
    simp [step, hlab]
  rw [h1]
  simp [step, runQueryEffect, hne]

/-- C9 witness: selecting the suggestion labelled "Paris" while the query is
already "Paris", then genuinely editing to "London" (6 ≥ 3 trimmed
characters) fetches nothing: no debounce timer is started and no fetch is
issued for that edit. -/
theorem C9_witness :
    (Logbook.step { Logbook.initState with query := "Paris" }
        (Logbook.Event.select Logbook.sParis)).justSelected = true ∧
    (Logbook.step (Logbook.step { Logbook.initState with query := "Paris" }
        (Logbook.Event.select Logbook.sParis))
        (Logbook.Event.edit "London")).justSelected = false ∧
    (Logbook.step (Logbook.step { Logbook.initState with query := "Paris" }
        (Logbook.Event.select Logbook.sParis))
        (Logbook.Event.edit "London")).debounce = none ∧
    (Logbook.step (Logbook.step { Logbook.initState with query := "Paris" }
        (Logbook.Event.select Logbook.sParis))
        (Logbook.Event.edit "London")).issued =
      ({ Logbook.initState with query := "Paris" } : Logbook.SearchState).issued ∧
    (Logbook.step (Logbook.step { Logbook.initState with query := "Paris" }
        (Logbook.Event.select Logbook.sParis))
        (Logbook.Event.edit "London")).suggestions =
      (Logbook.step { Logbook.initState with query := "Paris" }
        (Logbook.Event.select Logbook.sParis)).suggestions :=
  Logbook.C9_theorem { Logbook.initState with query := "Paris" } Logbook.sParis
    "London" (by decide) (by decide)

/-- Invariant backing C8: every issued fetch, and every pending debounce
timer, carries a query of at least 3 trimmed characters. -/
def issuedOk (st : SearchState) : Prop :=
  (∀ f ∈ st.issued, 3 ≤ trimLen f.2) ∧
  (∀ q, st.debounce = some q → 3 ≤ trimLen q)

theorem issuedOk_runQueryEffect (st : SearchState) (h : issuedOk st) :
    issuedOk (runQueryEffect st) := by
  obtain ⟨h1, h2⟩ := h
  rw [runQueryEffect]
  by_cases hj : st.justSelected
  · simp only [hj, if_true]
    exact ⟨h1, by simp⟩
  · simp only [hj, if_false]
    by_cases hq : trimLen st.query < 3
    · simp only [hq, if_true]
      exact ⟨h1, by simp⟩
    · simp only [hq, if_false]
      refine ⟨h1, fun q hq' => ?_⟩
      have hqe : st.query = q := by simpa using hq'
      rw [← hqe]
      omega

theorem issuedOk_step (st : SearchState) (e : Event) (h : issuedOk st) :
    issuedOk (step st e) := by
  obtain ⟨h1, h2⟩ := h
  cases e with
  | edit s =>
    by_cases hq : s = st.query
    · simpa [step, hq] using ⟨h1, h2⟩
    · rw [step]
      simp only [hq, if_false]
      exact issuedOk_runQueryEffect _ ⟨h1, h2⟩
  | select sugg =>
    by_cases hq : sugg.label = st.query
    · simp only [step, hq, if_true]
      exact ⟨h1, h2⟩
    · rw [step]
      simp only [hq, if_false]
      exact issuedOk_runQueryEffect _ ⟨h1, h2⟩
  | fire =>
    rw [step]
    cases hd : st.debounce with
    | none => exact ⟨h1, h2⟩
    | some q =>
      refine ⟨fun f hf => ?_, by simp⟩
      rcases List.mem_append.mp hf with hf | hf
      · exact h1 f hf
      · have : f = (st.issued.length, q) := by simpa using hf
        rw [this]
        exact h2 q hd
  | resolveOk n results => exact ⟨h1, h2⟩
  | resolveErr n msg => exact ⟨h1, h2⟩

theorem issuedOk_run (events : List Event) :
    ∀ st : SearchState, issuedOk st → issuedOk (run st events) := by
  induction events with
  | nil => intro st h; exact h
  | cons e es ih =>
    intro st h
    exact ih (step st e) (issuedOk_step st e h)

/-- C8 (amended): in every interleaving, no fetch is ever issued for a query
of fewer than 3 trimmed characters (and no debounce timer carrying such a
query is ever pending); and whenever a query-change evaluation runs with the
just-selected suppression flag CLEAR and the new query has fewer than 3
trimmed characters, the suggestion list is immediately cleared, the error is
cleared, the panel is closed and no debounce timer is started.  The original
claim's unconditional clear-and-close does not survive the evaluation that
consumes the suppression flag, which returns early — see
`C8_counterexample`. -/
theorem C8_amended :
    (∀ (events : List Event), ∀ f ∈ (run initState events).issued,
      3 ≤ trimLen f.2) ∧
    (∀ (st : SearchState) (s : String), st.justSelected = false →
      s ≠ st.query → trimLen s < 3 →
      (step st (Event.edit s)).suggestions = [] ∧
      (step st (Event.edit s)).panelOpen = false ∧
      (step st (Event.edit s)).error = none ∧
      (step st (Event.edit s)).debounce = none ∧
      (step st (Event.edit s)).issued = st.issued) := by
  constructor
  · intro events f hf
    have h0 : issuedOk initState := ⟨by simp [initState], by simp [initState]⟩
    exact (issuedOk_run events initState h0).1 f hf
  · intro st s h1 h2 h3
    rw [step]
    simp only [h2, if_false]
    rw [runQueryEffect]
    simp [h1, h3]

/-- C8 counterexample.  A reachable interleaving after which the query has
2 trimmed characters while the suggestion list is non-empty and the panel is
open: type "Paris" (fetch 0 resolves, panel opens), type "Pariss" (fetch 1
issued, still in flight), retype "Paris", click the suggestion labelled
"Paris" — identical to the query, so the flag is not consumed — then fetch
1's late response reopens the panel, and the edit to "ab" is swallowed by
the flag guard, clearing and closing nothing. -/
def c8Trace : List Event :=
  [Event.edit "Paris", Event.fire, Event.resolveOk 0 [sParis],
   Event.edit "Pariss", Event.fire, Event.edit "Paris",
   Event.select sParis, Event.resolveOk 1 [sParisTexas], Event.edit "ab"]

theorem C8_counterexample :
    (run initState c8Trace).query = "ab" ∧
    trimLen "ab" < 3 ∧
    (run initState c8Trace).suggestions = [sParisTexas] ∧
    [sParisTexas] ≠ ([] : List PlaceSuggestion) ∧
    (run initState c8Trace).panelOpen = true := by
  refine ⟨rfl, by decide, rfl, by decide, rfl⟩

/-- C8 amended witness: the empty trace issues no fetches (vacuously ≥ 3),
instantiated at a concrete issued entry via a 2-event trace, and a clean
(flag-clear) edit to the short query "ab" clears and closes everything. -/
theorem C8_amended_witness :
    3 ≤ Logbook.trimLen "abc" ∧
    ((Logbook.step { Logbook.initState with
        query := "Paris", suggestions := [Logbook.sParis], panelOpen := true }
        (Logbook.Event.edit "ab")).suggestions = [] ∧
     (Logbook.step { Logbook.initState with
        query := "Paris", suggestions := [Logbook.sParis], panelOpen := true }
        (Logbook.Event.edit "ab")).panelOpen = false ∧
     (Logbook.step { Logbook.initState with
        query := "Paris", suggestions := [Logbook.sParis], panelOpen := true }
        (Logbook.Event.edit "ab")).error = none ∧
     (Logbook.step { Logbook.initState with
        query := "Paris", suggestions := [Logbook.sParis], panelOpen := true }
        (Logbook.Event.edit "ab")).debounce = none ∧
     (Logbook.step { Logbook.initState with
        query := "Paris", suggestions := [Logbook.sParis], panelOpen := true }
        (Logbook.Event.edit "ab")).issued =
      ({ Logbook.initState with
        query := "Paris", suggestions := [Logbook.sParis], panelOpen := true } :
          Logbook.SearchState).issued) :=
  ⟨Logbook.C8_amended.1 [Logbook.Event.edit "abc", Logbook.Event.fire]
      (0, "abc") (by decide),
   Logbook.C8_amended.2
      { Logbook.initState with
        query := "Paris", suggestions := [Logbook.sParis], panelOpen := true }
      "ab" (by decide) (by decide) (by decide)⟩

/-- C10: a places-search response that resolves successfully but carries an
`error` field in its body makes `searchPlaces` return the empty suggestion
list (the `return []` branch, not a throw), so the component runs the
success handler on `[]` and surfaces the empty-result message "No results
found" — not the service-failure message of the catch path. -/
theorem C10_theorem (q : String) (resp : PlacesResponse) (st : SearchState)
    (n : ℕ) (he : resp.error.isSome) :
    searchPlaces q resp = [] ∧
    (step st (Event.resolveOk n (searchPlaces q resp))).suggestions = [] ∧
    (step st (Event.resolveOk n (searchPlaces q resp))).error =
      some "No results found" := by
  have hsp : searchPlaces q resp = [] := by
    rw [searchPlaces]
    by_cases h1 : trimLen q < 3
    · rw [if_pos h1]
    · rw [if_neg h1, if_pos he]
  refine ⟨hsp, ?_, ?_⟩ <;> rw [hsp] <;> simp [step]

/-- C10 witness: the body `{ error: "upstream failure" }` for the query
"london" yields no suggestions and the "No results found" message. -/
theorem C10_witness :
    Logbook.searchPlaces "london"
      { error := some "upstream failure", features := none } = [] ∧
    (Logbook.step Logbook.initState (Logbook.Event.resolveOk 0
        (Logbook.searchPlaces "london"
          { error := some "upstream failure", features := none }))).suggestions
      = [] ∧
    (Logbook.step Logbook.initState (Logbook.Event.resolveOk 0
        (Logbook.searchPlaces "london"
          { error := some "upstream failure", features := none }))).error
      = some "No results found" :=
  Logbook.C10_theorem "london"
    { error := some "upstream failure", features := none }
    Logbook.initState 0 (by decide)

end Logbook





